import Mathlib

/-!
Shallow embedding of the rpi-backup wrapper script (src/main script of the
repository).  The script is linear glue code: it merges a JSON config onto
defaults, publishes MQTT status, mounts a CIFS share, prepares a per-device
directory, names a backup image from a rotation interval, shells out to a
backup command, and unmounts.

Pure computations (image naming, device-directory naming, config merging)
are embedded as Lean functions.  The effectful main flow is embedded as a
function from an environment of oracle answers (one field per operating
system query the script makes, in program order) to a run result consisting
of an exit code, the ordered list of externally visible events (MQTT
publishes, shell commands) and a flag for termination by an unhandled
Python exception.
-/

set_option autoImplicit false

namespace RpiBackup

/-! ## Calendar arithmetic

The script calls datetime.datetime.now() and date.isocalendar().  These
library functions are embedded following the reference implementation of
the CPython datetime module (proleptic Gregorian calendar; ordinal 1 is
0001-01-01, a Monday). -/

/-- A calendar date as produced by datetime.now(): year in 1..9999. -/
structure Date where
  year : Nat
  month : Nat
  day : Nat
deriving DecidableEq, Repr

/-- Valid dates as datetime can produce them. -/
def Date.Valid (d : Date) : Prop :=
  1 ≤ d.year ∧ d.year ≤ 9999 ∧ 1 ≤ d.month ∧ d.month ≤ 12 ∧
    1 ≤ d.day ∧ d.day ≤ 31

/-- Leap year test of the Gregorian calendar (as in datetime). -/
def isLeapYear (y : Nat) : Bool :=
  y % 4 == 0 && (y % 100 != 0 || y % 400 == 0)

/-- Days in the months of a year, January first (as in datetime). -/
def daysInMonth (y : Nat) (m : Nat) : Nat :=
  if m == 2 then (if isLeapYear y then 29 else 28)
  else if m == 4 || m == 6 || m == 9 || m == 11 then 30
  else 31

/-- Number of days in the years before year y (datetime days_before_year). -/
def daysBeforeYear (y : Nat) : Nat :=
  (y - 1) * 365 + (y - 1) / 4 - (y - 1) / 100 + (y - 1) / 400

/-- Number of days in year y strictly before month m (datetime
days_before_month, using the DAYS_BEFORE_MONTH table of the CPython
reference implementation plus the leap correction for months after
February). -/
def daysBeforeMonth (y : Nat) (m : Nat) : Nat :=
  (match m with
   | 1 => 0 | 2 => 31 | 3 => 59 | 4 => 90 | 5 => 120 | 6 => 151
   | 7 => 181 | 8 => 212 | 9 => 243 | 10 => 273 | 11 => 304 | 12 => 334
   | _ => 0) +
  (if m > 2 && isLeapYear y then 1 else 0)

/-- Proleptic Gregorian ordinal of a date (datetime ymd2ord):
0001-01-01 has ordinal 1. -/
def ymd2ord (y m d : Nat) : Nat :=
  daysBeforeYear y + daysBeforeMonth y m + d

/-- Ordinal of the Monday starting ISO week 1 of year y (datetime
isoweek1monday): week 1 is the week containing the first Thursday. -/
def isoweek1monday (y : Nat) : Int :=
  let firstday : Int := ymd2ord y 1 1
  let firstweekday : Int := (firstday + 6) % 7
  let week1monday : Int := firstday - firstweekday
  if firstweekday > 3 then week1monday + 7 else week1monday

/-- ISO 8601 week number of a date, as returned in position 1 of
date.isocalendar() in the CPython datetime module.  CPython computes the
week with divmod, Python floor division; the divisor 7 is positive, so the
Euclidean division of Int used here agrees with it. -/
def isocalendarWeek (d : Date) : Nat :=
  let today : Int := ymd2ord d.year d.month d.day
  let week : Int := (today - isoweek1monday d.year) / 7
  if week < 0 then
    ((today - isoweek1monday (d.year - 1)) / 7 + 1).toNat
  else if week ≥ 52 ∧ today ≥ isoweek1monday (d.year + 1) then 1
  else (week + 1).toNat

/-! ## Python string primitives

The script uses str.lower, str.replace, str.strip and str.format.  They
are embedded over character lists so that they compute by kernel
reduction. -/

/-- Python str.lower restricted to its ASCII behaviour, which is all the
interval comparison needs: each character is lowercased. -/
def pyLower (s : String) : String :=
  String.mk (s.data.map Char.toLower)

/-- Python str.replace with a one-character pattern and an empty
replacement, as in .replace(":", ""): every occurrence of the character is
deleted. -/
def pyRemoveChar (c : Char) (s : String) : String :=
  String.mk (s.data.filter (fun a => a ≠ c))

/-- Whitespace characters stripped by Python str.strip(). -/
def isPySpace (c : Char) : Bool :=
  c == ' ' || c == '\t' || c == '\n' || c == '\x0d' || c == '\x0b' || c == '\x0c'

/-- Python str.strip(): drop leading and trailing whitespace. -/
def pyStrip (s : String) : String :=
  String.mk (((s.data.dropWhile isPySpace).reverse.dropWhile isPySpace).reverse)

/-! ## String formatting

Python str.format with format specs 04d and 02d: decimal digits of a
nonnegative integer, left-padded with zeros up to the field width. -/

/-- Python format spec 0wd applied to a nonnegative integer: decimal
representation left-padded with zero characters to width w. -/
def pyFmt (w : Nat) (n : Nat) : String :=
  let s := Nat.repr n
  String.mk (List.replicate (w - s.length) '0' ++ s.data)

/-! ## Image naming

Embedding of the image-name construction block of the script:

  image = settings [backup][image_base_name]
  interval = settings [backup][full_backup_interval].lower()[0]
  now = datetime.datetime.now()
  if interval == d: image += ...YYYY-MM-DD.img
  elif interval == w: ...YYYY-wkWW.img
  elif interval == m: ...YYYY-MM.img
  elif interval == y: ...YYYY.img

Taking element [0] of an empty string raises IndexError, so the result is
an Option: none models the unhandled exception. -/

/-- First character of the lowercased interval keyword, none when the
keyword is empty (in which case the script dies with an IndexError). -/
def intervalFirstChar (interval : String) : Option Char :=
  (pyLower interval).data.head?

/-- Image filename computed by the script from the base name, the interval
keyword and the current date; none models the IndexError raised on an
empty interval keyword. -/
def imageName (base : String) (interval : String) (d : Date) : Option String :=
  match intervalFirstChar interval with
  | none => none
  | some c =>
    some (if c = 'd' then
        base ++ "_" ++ pyFmt 4 d.year ++ "-" ++ pyFmt 2 d.month ++ "-"
          ++ pyFmt 2 d.day ++ ".img"
      else if c = 'w' then
        base ++ "_" ++ pyFmt 4 d.year ++ "-wk"
          ++ pyFmt 2 (isocalendarWeek d) ++ ".img"
      else if c = 'm' then
        base ++ "_" ++ pyFmt 4 d.year ++ "-" ++ pyFmt 2 d.month ++ ".img"
      else if c = 'y' then
        base ++ "_" ++ pyFmt 4 d.year ++ ".img"
      else base)

/-! ## Device directory

  device_directory = {}_{}.format(
      socket.gethostname(),
      check_output(maccmd, shell=True).decode().replace(":","").strip()) -/

/-- Device directory name: hostname, underscore, and the output of the MAC
address command with every colon removed and surrounding whitespace
stripped. -/
def deviceDirectory (hostname : String) (macOutput : String) : String :=
  hostname ++ "_" ++ pyStrip (pyRemoveChar ':' macOutput)

/-! ## Configuration merge

The settings are a Python dict of three section dicts.  The override file
is parsed JSON; the script merges it with

  if backup in overrides and isinstance(overrides[backup], dict):
      settings[backup].update(overrides[backup])

and the same for cifs and mqtt.  JSON values are embedded as an inductive
type, Python dicts over string keys as association lists in insertion
order: json.load produces dicts, so section objects have pairwise distinct
keys. -/

/-- A parsed JSON value as produced by json.load.  Numbers are embedded as
integers; no configuration default or claim involves a fractional value. -/
inductive JVal where
  | null : JVal
  | bool (b : Bool) : JVal
  | num (n : Int) : JVal
  | str (s : String) : JVal
  | arr (elems : List JVal) : JVal
  | obj (fields : List (String × JVal)) : JVal

/-- Python dict lookup on an association list. -/
def dictLookup (d : List (String × JVal)) (k : String) : Option JVal :=
  match d with
  | [] => none
  | p :: rest => if p.1 = k then some p.2 else dictLookup rest k

/-- Python dict assignment d[k] = v: replace the value of an existing key
in place, otherwise append the new binding at the end. -/
def dictSet (d : List (String × JVal)) (k : String) (v : JVal) :
    List (String × JVal) :=
  match d with
  | [] => [(k, v)]
  | p :: rest => if p.1 = k then (k, v) :: rest else p :: dictSet rest k v

/-- Python dict.update(other): assign every binding of other in order. -/
def dictUpdate (d other : List (String × JVal)) : List (String × JVal) :=
  other.foldl (fun acc p => dictSet acc p.1 p.2) d

/-- The default cifs section of the settings dict. -/
def defaultCifs : List (String × JVal) :=
  [("user", .str ""),
   ("password", .str ""),
   ("share", .str "//10.0.0.2/backup"),
   ("target", .str "/media/backup"),
   ("subDir", .str "")]

/-- The default backup section of the settings dict. -/
def defaultBackup : List (String × JVal) :=
  [("command", .str "/opt/bkup_rpimage/bkup_rpimage.sh"),
   ("image_base_name", .str "sdimage"),
   ("full_backup_interval", .str "monthly")]

/-- The default mqtt section of the settings dict. -/
def defaultMqtt : List (String × JVal) :=
  [("client_id", .str "rpi-backup"),
   ("host", .str "127.0.0.1"),
   ("port", .num 1883),
   ("keepalive", .num 60),
   ("bind_address", .str ""),
   ("username", .null),
   ("password", .null),
   ("qos", .num 0),
   ("pub_topic_namespace", .str "pi/backup"),
   ("retain", .bool true)]

/-- The three section dicts of the settings dict. -/
structure SettingsDict where
  cifs : List (String × JVal)
  backup : List (String × JVal)
  mqtt : List (String × JVal)

/-- The compiled-in default settings. -/
def defaultSettingsDict : SettingsDict :=
  { cifs := defaultCifs, backup := defaultBackup, mqtt := defaultMqtt }

/-- One section step of the merge: if the key is present in the overrides
and its value is a dict, update the section with it, as in
  if backup in overrides and isinstance(overrides[backup], dict). -/
def mergeSection (section_ : List (String × JVal))
    (overrides : List (String × JVal)) (key : String) :
    List (String × JVal) :=
  match dictLookup overrides key with
  | some (.obj o) => dictUpdate section_ o
  | _ => section_

/-- The settings after the three merge statements of the script have run
on a parsed override file. -/
def mergeSettings (base : SettingsDict) (overrides : List (String × JVal)) :
    SettingsDict :=
  { cifs := mergeSection base.cifs overrides "cifs",
    backup := mergeSection base.backup overrides "backup",
    mqtt := mergeSection base.mqtt overrides "mqtt" }

/-- Settings resulting from loading an override file onto the defaults. -/
def loadedSettings (overrides : List (String × JVal)) : SettingsDict :=
  mergeSettings defaultSettingsDict overrides

/-! ## The main flow

After the configuration is loaded the script runs once, top to bottom.
Every operating-system query it makes is answered by an oracle field of an
environment, one field per call site in program order.  The externally
visible behaviour is the ordered list of MQTT publishes and shell
commands, the final exit code, and whether the interpreter died with an
unhandled exception (which CPython reports with exit status 1). -/

/-- The string-typed settings values the main flow reads.  The mqtt qos
and retain values configure the MQTT client library and are not part of
the modelled observable events. -/
structure Settings where
  cifsUser : String
  cifsPassword : String
  cifsShare : String
  cifsTarget : String
  cifsSubDir : String
  backupCommand : String
  imageBaseName : String
  fullBackupInterval : String
  pubTopicNamespace : String
deriving DecidableEq, Repr

/-- The settings the defaults give, as strings. -/
def defaultSettings : Settings :=
  { cifsUser := ""
    cifsPassword := ""
    cifsShare := "//10.0.0.2/backup"
    cifsTarget := "/media/backup"
    cifsSubDir := ""
    backupCommand := "/opt/bkup_rpimage/bkup_rpimage.sh"
    imageBaseName := "sdimage"
    fullBackupInterval := "monthly"
    pubTopicNamespace := "pi/backup" }

/-- Externally visible events of one run, in order. -/
inductive Event where
  /-- An MQTT publish of a payload to a topic. -/
  | publish (topic : String) (payload : String) : Event
  /-- The CIFS mount shell command. -/
  | mount (cmd : String) : Event
  /-- The MAC-address lookup shell command. -/
  | maccmd : Event
  /-- The os.mkdir call on a path. -/
  | mkdir (path : String) : Event
  /-- The backup shell command. -/
  | backup (cmd : String) : Event
  /-- The umount shell command on a mount point. -/
  | umount (target : String) : Event
deriving DecidableEq, Repr

/-- Oracle answers for the operating-system queries of one run, one field
per call site, in program order. -/
structure Env where
  /-- os.path.isdir(mountpoint) at the mount-point check. -/
  isdirMountpoint : Bool
  /-- os.path.ismount(mountpoint) before mounting. -/
  ismountFirst : Bool
  /-- Exit status of the mount shell command; the script discards it. -/
  mountRet : Int
  /-- os.path.ismount(mountpoint) at the re-check after mounting. -/
  ismountSecond : Bool
  /-- os.path.isdir(backup_path) for the share-level backup directory. -/
  isdirBackupPath : Bool
  /-- Exit status of the MAC-address shell command; check_output raises
  CalledProcessError when it is nonzero. -/
  maccmdRet : Int
  /-- Output of the MAC-address shell command. -/
  macOutput : String
  /-- socket.gethostname(). -/
  hostname : String
  /-- os.path.isdir(backup_path) for the device directory, before mkdir. -/
  isdirDevicePath : Bool
  /-- Whether os.mkdir raises an OSError. -/
  mkdirRaises : Bool
  /-- os.path.isdir(backup_path) re-checked after mkdir returned. -/
  isdirDevicePathAfter : Bool
  /-- datetime.datetime.now() at image naming. -/
  now : Date
  /-- os.path.isfile on the image path (controls a log line only). -/
  isfileImage : Bool
  /-- Exit status of the backup shell command. -/
  backupRet : Int
  /-- Exit status of the final umount shell command. -/
  umountRet : Int
  /-- str(datetime.datetime.now()) as published on last_error/timestamp. -/
  errorTimestamp : String
  /-- str(datetime.datetime.now()) as published on last_success. -/
  successTimestamp : String
deriving DecidableEq, Repr

/-- Result of one run: final exit code, ordered events, and whether the
interpreter terminated on an unhandled exception (its exit status is then
1 and nothing further is published or unmounted). -/
structure RunResult where
  exitCode : Int
  events : List Event
  crashed : Bool
deriving DecidableEq, Repr

/-- The fatal_error function: publish the message and a timestamp under
last_error, log, optionally try to unmount, and exit with the given
code. -/
def fatalError (ns : String) (prior : List Event) (message : String)
    (errTimestamp : String) (errorCode : Int) (unmountTarget : Option String) :
    RunResult :=
  let evs := prior ++
    [Event.publish (ns ++ "/" ++ "last_error/message") message,
     Event.publish (ns ++ "/" ++ "last_error/timestamp") errTimestamp]
  let evs := match unmountTarget with
    | some t => evs ++ [Event.umount t]
    | none => evs
  { exitCode := errorCode, events := evs, crashed := false }

/-- Termination by an unhandled Python exception: the interpreter prints a
traceback and exits with status 1; no publish or unmount happens. -/
def crashResult (prior : List Event) : RunResult :=
  { exitCode := 1, events := prior, crashed := true }

/-- The tail of the run from image naming onwards: name the image, invoke
the backup command, check its exit status, unmount, and report success. -/
def runFromImage (s : Settings) (e : Env) (ns mountpoint backupPath : String)
    (evs : List Event) : RunResult :=
  match imageName s.imageBaseName s.fullBackupInterval e.now with
  | none => crashResult evs
  | some image =>
    let backupcmd := s.backupCommand ++ " start -c " ++ backupPath ++ "/" ++ image
    let evs := evs ++ [Event.backup backupcmd]
    if e.backupRet > 0 then
      fatalError ns evs
        ("Backup stopped with exit code " ++ toString e.backupRet)
        e.errorTimestamp 5 (some mountpoint)
    else
      let evs := evs ++ [Event.umount mountpoint]
      if e.umountRet > 0 then
        fatalError ns evs "Failed to unmount the backup volume"
          e.errorTimestamp 6 none
      else
        { exitCode := 0,
          events := evs ++
            [Event.publish (ns ++ "/" ++ "last_success") e.successTimestamp],
          crashed := false }

/-- One full run of the script after configuration loading: publish busy,
check the mount point, mount if needed, re-check, resolve the device
directory, create it if absent, then continue with runFromImage. -/
def runBackup (s : Settings) (e : Env) : RunResult :=
  let ns := s.pubTopicNamespace
  let mountpoint := s.cifsTarget
  let mountcmd := "mount -t cifs -o user=" ++ s.cifsUser ++ ",password="
    ++ s.cifsPassword ++ ",rw,file_mode=0777,dir_mode=0777 "
    ++ s.cifsShare ++ " " ++ mountpoint
  let backupPath := mountpoint ++ "/" ++ s.cifsSubDir
  let evs := [Event.publish ns "busy"]
  if !e.isdirMountpoint then
    fatalError ns evs ("Invalid mount point " ++ mountpoint)
      e.errorTimestamp 1 none
  else
    let evs := if !e.ismountFirst then evs ++ [Event.mount mountcmd] else evs
    if !e.ismountSecond then
      fatalError ns evs ("Failed to mount backup volume " ++ mountpoint)
        e.errorTimestamp 2 none
    else if !e.isdirBackupPath then
      fatalError ns evs ("Invalid backup directory " ++ backupPath)
        e.errorTimestamp 3 (some mountpoint)
    else
      let evs := evs ++ [Event.maccmd]
      if e.maccmdRet ≠ 0 then crashResult evs
      else
        let backupPath := backupPath ++ "/" ++ deviceDirectory e.hostname e.macOutput
        if !e.isdirDevicePath then
          let evs := evs ++ [Event.mkdir backupPath]
          if e.mkdirRaises then crashResult evs
          else if !e.isdirDevicePathAfter then
            fatalError ns evs ("Failed to create " ++ backupPath)
              e.errorTimestamp 4 (some mountpoint)
          else
            runFromImage s e ns mountpoint backupPath evs
        else
          runFromImage s e ns mountpoint backupPath evs

/-! ## Concrete inputs used as test vectors -/

/-- Oracle answers of a run in which every step succeeds. -/
def envSuccess : Env :=
  { isdirMountpoint := true
    ismountFirst := false
    mountRet := 0
    ismountSecond := true
    isdirBackupPath := true
    maccmdRet := 0
    macOutput := "b8:27:eb:00:11:22\n"
    hostname := "rpi"
    isdirDevicePath := true
    mkdirRaises := false
    isdirDevicePathAfter := true
    now := ⟨2024, 3, 15⟩
    isfileImage := false
    backupRet := 0
    umountRet := 0
    errorTimestamp := "2024-03-15 02:00:09.000001"
    successTimestamp := "2024-03-15 02:10:00.000001" }

/-- Oracle answers of a run in which the backup command is terminated by
signal 9, which subprocess.call reports as the return value -9. -/
def envSignalKilled : Env :=
  { envSuccess with backupRet := -9 }

/-- Oracle answers of a run in which the device directory is absent and
os.mkdir raises an OSError (for example because the share is read only),
so the directory still does not exist afterwards. -/
def envMkdirRaises : Env :=
  { envSuccess with
      isdirDevicePath := false
      mkdirRaises := true
      isdirDevicePathAfter := false }

/-- Settings whose full_backup_interval is the empty string. -/
def settingsEmptyInterval : Settings :=
  { defaultSettings with fullBackupInterval := "" }

/-! ## Helper lemmas -/

theorem pyFmt_length (w n : Nat) (hw : 0 < w) (h : n < 10 ^ w) :
    (pyFmt w n).length = w := by
  have hlen : (Nat.repr n).length ≤ w := Nat.repr_length n w hw h
  simp only [String.length] at hlen
  simp only [pyFmt, String.length, List.length_append, List.length_replicate]
  omega

theorem daysBeforeYear_succ_le (y : Nat) :
    daysBeforeYear (y + 1) ≤ daysBeforeYear y + 366 := by
  simp only [daysBeforeYear]
  omega

theorem isoweek1monday_eq (y : Nat) : isoweek1monday y =
    if ((ymd2ord y 1 1 : Int) + 6) % 7 > 3 then
      (ymd2ord y 1 1 : Int) - ((ymd2ord y 1 1 : Int) + 6) % 7 + 7
    else
      (ymd2ord y 1 1 : Int) - ((ymd2ord y 1 1 : Int) + 6) % 7 := rfl

theorem isoweek1monday_bounds (y : Nat) :
    (ymd2ord y 1 1 : Int) - 3 ≤ isoweek1monday y ∧
      isoweek1monday y ≤ (ymd2ord y 1 1 : Int) + 3 := by
  rw [isoweek1monday_eq]
  refine ⟨?_, ?_⟩ <;> split_ifs <;> omega

theorem isocalendarWeek_eq (d : Date) : isocalendarWeek d =
    (if ((ymd2ord d.year d.month d.day : Int) - isoweek1monday d.year) / 7 < 0 then
      (((ymd2ord d.year d.month d.day : Int) - isoweek1monday (d.year - 1)) / 7 + 1).toNat
    else if ((ymd2ord d.year d.month d.day : Int) - isoweek1monday d.year) / 7 ≥ 52 ∧
        (ymd2ord d.year d.month d.day : Int) ≥ isoweek1monday (d.year + 1) then 1
    else (((ymd2ord d.year d.month d.day : Int) - isoweek1monday d.year) / 7 + 1).toNat) := rfl

theorem daysBeforeMonth_le (y m : Nat) (h : m ≤ 12) :
    daysBeforeMonth y m ≤ 335 := by
  unfold daysBeforeMonth
  interval_cases m <;> cases hL : isLeapYear y <;> simp [hL]

/-- The ISO week number of a real date fits in the two digit field the
weekly pattern provides for it. -/
theorem isocalendarWeek_lt_100 (d : Date) (hy : 1 ≤ d.year)
    (hm : d.month ≤ 12) (hd : d.day ≤ 31) :
    isocalendarWeek d < 100 := by
  obtain ⟨Y, M, D⟩ := d
  simp only [Date.year, Date.month, Date.day] at hy hm hd ⊢
  have hbm : daysBeforeMonth Y M ≤ 335 := daysBeforeMonth_le Y M hm
  have hbm1 : daysBeforeMonth Y 1 = 0 := rfl
  have hbm1m : daysBeforeMonth (Y - 1) 1 = 0 := rfl
  have hY : Y - 1 + 1 = Y := by omega
  have hdy1 := daysBeforeYear_succ_le (Y - 1)
  rw [hY] at hdy1
  have hw1 := isoweek1monday_bounds Y
  have hw3 := isoweek1monday_bounds (Y - 1)
  rw [isocalendarWeek_eq]
  simp only [ymd2ord, hbm1, hbm1m] at hw1 hw3 ⊢
  split_ifs <;> omega

theorem dictLookup_dictSet_self (d : List (String × JVal)) (k : String)
    (v : JVal) : dictLookup (dictSet d k v) k = some v := by
  induction d with
  | nil => simp [dictSet, dictLookup]
  | cons p rest ih => by_cases hp : p.1 = k <;> simp [dictSet, dictLookup, hp, ih]

theorem dictLookup_dictSet_ne (d : List (String × JVal)) (k k2 : String)
    (v : JVal) (h : k2 ≠ k) :
    dictLookup (dictSet d k v) k2 = dictLookup d k2 := by
  induction d with
  | nil => simp [dictSet, dictLookup, Ne.symm h]
  | cons p rest ih =>
    by_cases hp : p.1 = k
    · simp [dictSet, dictLookup, hp, Ne.symm h]
    · by_cases hp2 : p.1 = k2 <;>
        simp [dictSet, dictLookup, hp, hp2, ih, h, Ne.symm h]

theorem dictLookup_eq_none_of_not_mem (d : List (String × JVal)) (k : String)
    (h : k ∉ d.map Prod.fst) : dictLookup d k = none := by
  induction d with
  | nil => rfl
  | cons p rest ih =>
    simp only [List.map_cons, List.mem_cons] at h
    push_neg at h
    simp [dictLookup, Ne.symm h.1, ih h.2]

theorem dictLookup_dictUpdate_of_none (o : List (String × JVal)) :
    ∀ d k, dictLookup o k = none →
      dictLookup (dictUpdate d o) k = dictLookup d k := by
  induction o with
  | nil => intro d k _; rfl
  | cons p rest ih =>
    intro d k h
    by_cases hp : p.1 = k
    · simp [dictLookup, hp] at h
    · simp only [dictLookup, hp, if_neg hp] at h
      show dictLookup (dictUpdate (dictSet d p.1 p.2) rest) k = dictLookup d k
      rw [ih _ _ h, dictLookup_dictSet_ne _ _ _ _ (fun hh => hp hh.symm)]

theorem dictLookup_dictUpdate_of_some (o : List (String × JVal)) :
    ∀ d k v, (o.map Prod.fst).Nodup → dictLookup o k = some v →
      dictLookup (dictUpdate d o) k = some v := by
  induction o with
  | nil => intro d k v _ h; simp [dictLookup] at h
  | cons p rest ih =>
    intro d k v hnd h
    simp only [List.map_cons, List.nodup_cons] at hnd
    obtain ⟨hp1, hnd2⟩ := hnd
    by_cases hp : p.1 = k
    · have hv : p.2 = v := by simpa [dictLookup, hp] using h
      have hnone : dictLookup rest k = none := by
        rw [← hp]
        exact dictLookup_eq_none_of_not_mem rest p.1 hp1
      show dictLookup (dictUpdate (dictSet d p.1 p.2) rest) k = some v
      rw [dictLookup_dictUpdate_of_none rest _ _ hnone, ← hp,
        dictLookup_dictSet_self, hv]
    · have h2 : dictLookup rest k = some v := by simpa [dictLookup, hp] using h
      exact ih _ _ _ hnd2 h2

theorem mergeSection_of_no_obj (base ov : List (String × JVal)) (key : String)
    (h : ∀ o, dictLookup ov key ≠ some (JVal.obj o)) :
    mergeSection base ov key = base := by
  unfold mergeSection
  cases hl : dictLookup ov key with
  | none => rfl
  | some v => cases v <;> first | rfl | exact absurd hl (h _)

theorem mergeSection_of_obj (base ov o : List (String × JVal)) (key : String)
    (h : dictLookup ov key = some (JVal.obj o)) :
    mergeSection base ov key = dictUpdate base o := by
  unfold mergeSection
  rw [h]

theorem colon_not_mem_cleaned (mac : String) :
    ':' ∉ (pyStrip (pyRemoveChar ':' mac)).data := by
  intro h
  simp only [pyStrip, pyRemoveChar] at h
  rw [List.mem_reverse] at h
  have h2 := (List.dropWhile_sublist _).mem h
  rw [List.mem_reverse] at h2
  have h3 := (List.dropWhile_sublist _).mem h2
  have h4 := (List.mem_filter.mp h3).2
  simp at h4

theorem runFromImage_mount_free (s : Settings) (e : Env)
    (ns mp bp : String) (evs : List Event) (c : String)
    (h : Event.mount c ∈ (runFromImage s e ns mp bp evs).events) :
    Event.mount c ∈ evs := by
  unfold runFromImage at h
  cases himg : imageName s.imageBaseName s.fullBackupInterval e.now with
  | none => rw [himg] at h; simpa [crashResult] using h
  | some img =>
    rw [himg] at h
    split_ifs at h <;> simp_all [fatalError, crashResult]

/-! ## Claim theorems -/

/-- Claim C1: for every valid date and every interval keyword whose
lowercased first letter is d, w, m or y, the computed image filename
matches the documented pattern with zero-padded fields (daily
base_YYYY-MM-DD.img, weekly base_YYYY-wkWW.img with the ISO week number,
monthly base_YYYY-MM.img, yearly base_YYYY.img); in particular, base
sdimage with interval weekly on 2024-03-15 gives sdimage_2024-wk11.img. -/
theorem image_naming_pattern (base interval : String) (d : Date) (hv : d.Valid)
    (c : Char) (hc : intervalFirstChar interval = some c) :
    (c = 'd' → imageName base interval d =
        some (base ++ "_" ++ pyFmt 4 d.year ++ "-" ++ pyFmt 2 d.month ++ "-"
          ++ pyFmt 2 d.day ++ ".img") ∧
        (pyFmt 4 d.year).length = 4 ∧ (pyFmt 2 d.month).length = 2 ∧
        (pyFmt 2 d.day).length = 2) ∧
    (c = 'w' → imageName base interval d =
        some (base ++ "_" ++ pyFmt 4 d.year ++ "-wk"
          ++ pyFmt 2 (isocalendarWeek d) ++ ".img") ∧
        (pyFmt 4 d.year).length = 4 ∧ (pyFmt 2 (isocalendarWeek d)).length = 2) ∧
    (c = 'm' → imageName base interval d =
        some (base ++ "_" ++ pyFmt 4 d.year ++ "-" ++ pyFmt 2 d.month ++ ".img") ∧
        (pyFmt 4 d.year).length = 4 ∧ (pyFmt 2 d.month).length = 2) ∧
    (c = 'y' → imageName base interval d =
        some (base ++ "_" ++ pyFmt 4 d.year ++ ".img") ∧
        (pyFmt 4 d.year).length = 4) ∧
    imageName "sdimage" "weekly" ⟨2024, 3, 15⟩ = some "sdimage_2024-wk11.img" := by
  obtain ⟨hy1, hy2, hm1, hm2, hd1, hd2⟩ := hv
  have hp10 : (10 : Nat) ^ 4 = 10000 := by norm_num
  have hp2 : (10 : Nat) ^ 2 = 100 := by norm_num
  have h4 : (pyFmt 4 d.year).length = 4 :=
    pyFmt_length 4 d.year (by norm_num) (by omega)
  have hmo : (pyFmt 2 d.month).length = 2 :=
    pyFmt_length 2 d.month (by norm_num) (by omega)
  have hda : (pyFmt 2 d.day).length = 2 :=
    pyFmt_length 2 d.day (by norm_num) (by omega)
  have hwk : (pyFmt 2 (isocalendarWeek d)).length = 2 :=
    pyFmt_length 2 (isocalendarWeek d) (by norm_num)
      (by have := isocalendarWeek_lt_100 d hy1 hm2 hd2; omega)
  refine ⟨?_, ?_, ?_, ?_, by decide⟩ <;> intro h <;> subst h
  · exact ⟨by simp [imageName, hc], h4, hmo, hda⟩
  · exact ⟨by simp [imageName, hc], h4, hwk⟩
  · exact ⟨by simp [imageName, hc], h4, hmo⟩
  · exact ⟨by simp [imageName, hc], h4⟩

/-- Claim C1 witness: the documented weekly scenario, with every
hypothesis discharged at the concrete input. -/
theorem image_naming_pattern_witness :
    Date.Valid ⟨2024, 3, 15⟩ ∧
      imageName "sdimage" "weekly" ⟨2024, 3, 15⟩ = some "sdimage_2024-wk11.img" :=
  ⟨by unfold Date.Valid; decide,
   (image_naming_pattern "sdimage" "weekly" ⟨2024, 3, 15⟩
      (by unfold Date.Valid; decide) 'w' (by decide)).2.2.2.2⟩

/-- Claim C2 counterexample: for the unrecognized interval keyword hourly
the script leaves the image name exactly equal to the base name, with no
.img suffix, so the filename is sdimage and not sdimage.img as the claim
states. -/
theorem unrecognized_interval_counterexample :
    intervalFirstChar "hourly" = some 'h' ∧
      imageName "sdimage" "hourly" ⟨2024, 3, 15⟩ = some "sdimage" ∧
      imageName "sdimage" "hourly" ⟨2024, 3, 15⟩ ≠ some "sdimage.img" := by
  decide

/-- Claim C2 (amended): for every interval keyword whose lowercased first
letter is not one of d, w, m, y, the computed image filename equals
exactly the base name, with no date suffix and no .img extension. -/
theorem unrecognized_interval_no_suffix (base interval : String) (d : Date)
    (c : Char) (hc : intervalFirstChar interval = some c)
    (hd : c ≠ 'd') (hw : c ≠ 'w') (hm : c ≠ 'm') (hy : c ≠ 'y') :
    imageName base interval d = some base := by
  simp [imageName, hc, hd, hw, hm, hy]

/-- Claim C2 witness: the amended claim at the interval keyword hourly. -/
theorem unrecognized_interval_no_suffix_witness :
    imageName "sdimage" "hourly" ⟨2024, 3, 15⟩ = some "sdimage" :=
  unrecognized_interval_no_suffix "sdimage" "hourly" ⟨2024, 3, 15⟩ 'h'
    (by decide) (by decide) (by decide) (by decide) (by decide)

/-- Claim C3 counterexample: when the backup command is terminated by a
signal, subprocess.call returns a negative value, the check return_code
greater than zero does not fire, and the run finishes as a success with
exit code 0 instead of taking the fatal path with code 5. -/
theorem negative_backup_return_counterexample :
    envSignalKilled.backupRet = -9 ∧
      (runBackup defaultSettings envSignalKilled).exitCode = 0 ∧
      (runBackup defaultSettings envSignalKilled).exitCode ≠ 5 ∧
      (runBackup defaultSettings envSignalKilled).events =
        [Event.publish "pi/backup" "busy",
         Event.mount "mount -t cifs -o user=,password=,rw,file_mode=0777,dir_mode=0777 //10.0.0.2/backup /media/backup",
         Event.maccmd,
         Event.backup "/opt/bkup_rpimage/bkup_rpimage.sh start -c /media/backup//rpi_b827eb001122/sdimage_2024-03.img",
         Event.umount "/media/backup",
         Event.publish "pi/backup/last_success" "2024-03-15 02:10:00.000001"] := by
  decide

/-- Claim C3 (amended): whenever the backup command returns a positive
exit code the run takes the fatal path with error code 5, publishing
last_error and attempting an unmount; a zero or negative return value is
not treated as a failure and the run proceeds to unmount and exit 0 (or
6 when that unmount fails). -/
theorem backup_failure_exit5 (s : Settings) (e : Env)
    (h1 : e.isdirMountpoint = true) (h2 : e.ismountSecond = true)
    (h3 : e.isdirBackupPath = true) (h4 : e.maccmdRet = 0)
    (h5 : e.isdirDevicePath = true ∨
      (e.mkdirRaises = false ∧ e.isdirDevicePathAfter = true))
    (img : String)
    (himg : imageName s.imageBaseName s.fullBackupInterval e.now = some img) :
    (e.backupRet > 0 →
      (runBackup s e).exitCode = 5 ∧
      Event.publish (s.pubTopicNamespace ++ "/" ++ "last_error/message")
          ("Backup stopped with exit code " ++ toString e.backupRet) ∈
        (runBackup s e).events ∧
      Event.publish (s.pubTopicNamespace ++ "/" ++ "last_error/timestamp")
          e.errorTimestamp ∈ (runBackup s e).events ∧
      Event.umount s.cifsTarget ∈ (runBackup s e).events ∧
      (runBackup s e).crashed = false) ∧
    (e.backupRet ≤ 0 →
      (runBackup s e).exitCode = if e.umountRet > 0 then 6 else 0) := by
  constructor
  · intro hb
    rcases h5 with h5 | h5
    · cases hf : e.ismountFirst <;>
        simp [runBackup, runFromImage, fatalError, h1, h2, h3, h4, h5, hf,
          himg, hb]
    · obtain ⟨h5a, h5b⟩ := h5
      cases hdp : e.isdirDevicePath <;> cases hf : e.ismountFirst <;>
        simp [runBackup, runFromImage, fatalError, h1, h2, h3, h4, h5a, h5b,
          hdp, hf, himg, hb]
  · intro hb
    have hb2 : ¬ e.backupRet > 0 := by omega
    rcases h5 with h5 | h5
    · cases hf : e.ismountFirst <;>
        (simp [runBackup, runFromImage, fatalError, h1, h2, h3, h4, h5, hf,
          himg, hb2]) <;>
        (try (split_ifs <;> simp [fatalError]))
    · obtain ⟨h5a, h5b⟩ := h5
      cases hdp : e.isdirDevicePath <;> cases hf : e.ismountFirst <;>
        (simp [runBackup, runFromImage, fatalError, h1, h2, h3, h4, h5a, h5b,
          hdp, hf, himg, hb2]) <;>
        (try (split_ifs <;> simp [fatalError]))

/-- Claim C3 witness: a backup command exit code of 3 leads to exit code 5
with the unmount attempted. -/
theorem backup_failure_exit5_witness :
    (runBackup defaultSettings { envSuccess with backupRet := 3 }).exitCode = 5 ∧
      Event.umount "/media/backup" ∈
        (runBackup defaultSettings { envSuccess with backupRet := 3 }).events :=
  ⟨((backup_failure_exit5 defaultSettings { envSuccess with backupRet := 3 }
      (by decide) (by decide) (by decide) (by decide) (Or.inl (by decide))
      "sdimage_2024-03.img" (by decide)).1 (by decide)).1,
   ((backup_failure_exit5 defaultSettings { envSuccess with backupRet := 3 }
      (by decide) (by decide) (by decide) (by decide) (Or.inl (by decide))
      "sdimage_2024-03.img" (by decide)).1 (by decide)).2.2.2.1⟩

/-- Claim C4: if the configured mount point is not an existing directory,
the run publishes the error and exits with code 1, and its event trace
contains no mount command, no unmount, no directory creation and no
backup invocation. -/
theorem bad_mountpoint_exit1 (s : Settings) (e : Env)
    (h : e.isdirMountpoint = false) :
    runBackup s e =
      { exitCode := 1,
        events := [Event.publish s.pubTopicNamespace "busy",
          Event.publish (s.pubTopicNamespace ++ "/" ++ "last_error/message")
            ("Invalid mount point " ++ s.cifsTarget),
          Event.publish (s.pubTopicNamespace ++ "/" ++ "last_error/timestamp")
            e.errorTimestamp],
        crashed := false } ∧
    (∀ c, Event.mount c ∉ (runBackup s e).events) ∧
    (∀ t, Event.umount t ∉ (runBackup s e).events) ∧
    (∀ p, Event.mkdir p ∉ (runBackup s e).events) ∧
    (∀ c, Event.backup c ∉ (runBackup s e).events) := by
  have hrun : runBackup s e =
      { exitCode := 1,
        events := [Event.publish s.pubTopicNamespace "busy",
          Event.publish (s.pubTopicNamespace ++ "/" ++ "last_error/message")
            ("Invalid mount point " ++ s.cifsTarget),
          Event.publish (s.pubTopicNamespace ++ "/" ++ "last_error/timestamp")
            e.errorTimestamp],
        crashed := false } := by
    simp [runBackup, fatalError, h]
  refine ⟨hrun, ?_, ?_, ?_, ?_⟩ <;> intro x <;> rw [hrun] <;> simp

/-- Claim C4 witness: the theorem applied to a concrete environment whose
mount point does not exist. -/
theorem bad_mountpoint_exit1_witness :
    (runBackup defaultSettings
        { envSuccess with isdirMountpoint := false }).exitCode = 1 ∧
      (∀ c, Event.mount c ∉ (runBackup defaultSettings
        { envSuccess with isdirMountpoint := false }).events) ∧
      (∀ t, Event.umount t ∉ (runBackup defaultSettings
        { envSuccess with isdirMountpoint := false }).events) := by
  refine ⟨?_, (bad_mountpoint_exit1 defaultSettings _ (by decide)).2.1,
    (bad_mountpoint_exit1 defaultSettings _ (by decide)).2.2.1⟩
  rw [(bad_mountpoint_exit1 defaultSettings
    { envSuccess with isdirMountpoint := false } (by decide)).1]

/-- Claim C5: the configuration merge is per section; a section without a
dict override keeps all its defaults, keys absent from a section override
keep their default values, keys present in a section override take the
override value, and top level keys other than backup, cifs and mqtt have
no effect on the result. -/
theorem settings_merge_per_section (ov : List (String × JVal)) :
    ((∀ o, dictLookup ov "backup" ≠ some (JVal.obj o)) →
      (loadedSettings ov).backup = defaultBackup) ∧
    ((∀ o, dictLookup ov "cifs" ≠ some (JVal.obj o)) →
      (loadedSettings ov).cifs = defaultCifs) ∧
    ((∀ o, dictLookup ov "mqtt" ≠ some (JVal.obj o)) →
      (loadedSettings ov).mqtt = defaultMqtt) ∧
    (∀ o k, dictLookup ov "backup" = some (JVal.obj o) →
      dictLookup o k = none →
      dictLookup (loadedSettings ov).backup k = dictLookup defaultBackup k) ∧
    (∀ o k, dictLookup ov "cifs" = some (JVal.obj o) →
      dictLookup o k = none →
      dictLookup (loadedSettings ov).cifs k = dictLookup defaultCifs k) ∧
    (∀ o k, dictLookup ov "mqtt" = some (JVal.obj o) →
      dictLookup o k = none →
      dictLookup (loadedSettings ov).mqtt k = dictLookup defaultMqtt k) ∧
    (∀ o k v, dictLookup ov "backup" = some (JVal.obj o) →
      (o.map Prod.fst).Nodup → dictLookup o k = some v →
      dictLookup (loadedSettings ov).backup k = some v) ∧
    (∀ o k v, dictLookup ov "cifs" = some (JVal.obj o) →
      (o.map Prod.fst).Nodup → dictLookup o k = some v →
      dictLookup (loadedSettings ov).cifs k = some v) ∧
    (∀ o k v, dictLookup ov "mqtt" = some (JVal.obj o) →
      (o.map Prod.fst).Nodup → dictLookup o k = some v →
      dictLookup (loadedSettings ov).mqtt k = some v) ∧
    (∀ ov2, dictLookup ov2 "backup" = dictLookup ov "backup" →
      dictLookup ov2 "cifs" = dictLookup ov "cifs" →
      dictLookup ov2 "mqtt" = dictLookup ov "mqtt" →
      loadedSettings ov2 = loadedSettings ov) := by
  refine ⟨?_, ?_, ?_, ?_, ?_, ?_, ?_, ?_, ?_, ?_⟩
  · intro h
    exact mergeSection_of_no_obj defaultBackup ov "backup" h
  · intro h
    exact mergeSection_of_no_obj defaultCifs ov "cifs" h
  · intro h
    exact mergeSection_of_no_obj defaultMqtt ov "mqtt" h
  · intro o k hov hk
    show dictLookup (mergeSection defaultBackup ov "backup") k = _
    rw [mergeSection_of_obj defaultBackup ov o "backup" hov,
      dictLookup_dictUpdate_of_none o _ _ hk]
  · intro o k hov hk
    show dictLookup (mergeSection defaultCifs ov "cifs") k = _
    rw [mergeSection_of_obj defaultCifs ov o "cifs" hov,
      dictLookup_dictUpdate_of_none o _ _ hk]
  · intro o k hov hk
    show dictLookup (mergeSection defaultMqtt ov "mqtt") k = _
    rw [mergeSection_of_obj defaultMqtt ov o "mqtt" hov,
      dictLookup_dictUpdate_of_none o _ _ hk]
  · intro o k v hov hnd hk
    show dictLookup (mergeSection defaultBackup ov "backup") k = _
    rw [mergeSection_of_obj defaultBackup ov o "backup" hov]
    exact dictLookup_dictUpdate_of_some o _ _ _ hnd hk
  · intro o k v hov hnd hk
    show dictLookup (mergeSection defaultCifs ov "cifs") k = _
    rw [mergeSection_of_obj defaultCifs ov o "cifs" hov]
    exact dictLookup_dictUpdate_of_some o _ _ _ hnd hk
  · intro o k v hov hnd hk
    show dictLookup (mergeSection defaultMqtt ov "mqtt") k = _
    rw [mergeSection_of_obj defaultMqtt ov o "mqtt" hov]
    exact dictLookup_dictUpdate_of_some o _ _ _ hnd hk
  · intro ov2 hb hc hm
    show mergeSettings defaultSettingsDict ov2 = mergeSettings defaultSettingsDict ov
    unfold mergeSettings mergeSection
    rw [hb, hc, hm]

/-- Claim C5 witness: a partial cifs override together with an unknown top
level key leaves the backup section and the unspecified cifs fields at
their defaults while the overridden cifs field takes the new value. -/
theorem settings_merge_per_section_witness :
    (loadedSettings
        [("cifs", JVal.obj [("user", JVal.str "bob")]), ("junk", JVal.num 1)]).backup
      = defaultBackup ∧
    dictLookup (loadedSettings
        [("cifs", JVal.obj [("user", JVal.str "bob")]), ("junk", JVal.num 1)]).cifs
        "user" = some (JVal.str "bob") ∧
    dictLookup (loadedSettings
        [("cifs", JVal.obj [("user", JVal.str "bob")]), ("junk", JVal.num 1)]).cifs
        "target" = dictLookup defaultCifs "target" := by
  refine ⟨(settings_merge_per_section _).1 ?_,
    (settings_merge_per_section _).2.2.2.2.2.2.2.1
      [("user", JVal.str "bob")] "user" (JVal.str "bob") rfl (by simp) rfl,
    (settings_merge_per_section _).2.2.2.2.1
      [("user", JVal.str "bob")] "target" rfl rfl⟩
  intro o h
  rw [show dictLookup
      [("cifs", JVal.obj [("user", JVal.str "bob")]), ("junk", JVal.num 1)]
      "backup" = none from rfl] at h
  exact Option.noConfusion h

/-- Claim C6 counterexample: a hostname containing a colon survives into
the device directory name unchanged, so the computed name contains a
colon; only the MAC address part has its colons removed. -/
theorem device_directory_colon_counterexample :
    deviceDirectory "rpi:host" "b8:27:eb:00:11:22\n" = "rpi:host_b827eb001122" ∧
      ':' ∈ (deviceDirectory "rpi:host" "b8:27:eb:00:11:22\n").data := by
  decide

/-- Claim C6 (amended): the device directory name is the hostname, an
underscore, and the MAC command output with every colon removed and
surrounding whitespace stripped; it is deterministic, and it contains no
colon whenever the hostname itself contains none. -/
theorem device_directory_name (hostname mac : String) :
    deviceDirectory hostname mac =
      hostname ++ "_" ++ pyStrip (pyRemoveChar ':' mac) ∧
    (∀ hostname2 mac2, hostname2 = hostname → mac2 = mac →
      deviceDirectory hostname2 mac2 = deviceDirectory hostname mac) ∧
    (':' ∉ hostname.data → ':' ∉ (deviceDirectory hostname mac).data) := by
  refine ⟨rfl, ?_, ?_⟩
  · intro h2 m2 hh hm
    rw [hh, hm]
  · intro hh hmem
    simp only [deviceDirectory, String.data_append] at hmem
    rcases List.mem_append.mp hmem with h1 | h2
    · rcases List.mem_append.mp h1 with h3 | h4
      · exact hh h3
      · simp at h4
    · exact colon_not_mem_cleaned mac h2

/-- Claim C6 witness: the amended claim at a colon-free hostname and a
realistic MAC command output. -/
theorem device_directory_name_witness :
    ':' ∉ "rpi".data ∧
      ':' ∉ (deviceDirectory "rpi" "b8:27:eb:00:11:22\n").data ∧
      deviceDirectory "rpi" "b8:27:eb:00:11:22\n" = "rpi_b827eb001122" :=
  ⟨by decide,
   (device_directory_name "rpi" "b8:27:eb:00:11:22\n").2.2 (by decide),
   by decide⟩

/-- Claim C7: the mount command is issued only when the mount point is not
already mounted, its exit status is never consulted (the run result does
not depend on it), a failed re-check exits with code 2 and no unmount,
and a mounted share without the expected backup directory exits with code
3 after attempting an unmount. -/
theorem mount_idempotent_recheck (s : Settings) (e : Env) :
    (e.ismountFirst = true → ∀ c, Event.mount c ∉ (runBackup s e).events) ∧
    (∀ r, runBackup s { e with mountRet := r } = runBackup s e) ∧
    (e.isdirMountpoint = true → e.ismountSecond = false →
      (runBackup s e).exitCode = 2 ∧
      Event.publish (s.pubTopicNamespace ++ "/" ++ "last_error/message")
          ("Failed to mount backup volume " ++ s.cifsTarget) ∈
        (runBackup s e).events ∧
      (∀ t, Event.umount t ∉ (runBackup s e).events)) ∧
    (e.isdirMountpoint = true → e.ismountSecond = true →
      e.isdirBackupPath = false →
      (runBackup s e).exitCode = 3 ∧
      Event.publish (s.pubTopicNamespace ++ "/" ++ "last_error/message")
          ("Invalid backup directory " ++
            (s.cifsTarget ++ "/" ++ s.cifsSubDir)) ∈
        (runBackup s e).events ∧
      Event.umount s.cifsTarget ∈ (runBackup s e).events) := by
  refine ⟨?_, ?_, ?_, ?_⟩
  · intro hm c hmem
    unfold runBackup at hmem
    simp only [hm] at hmem
    split_ifs at hmem <;>
      first
        | (have hmf := runFromImage_mount_free _ _ _ _ _ _ _ hmem; simp_all)
        | simp_all [fatalError, crashResult]
  · intro r
    rfl
  · intro h1 h2
    cases hf : e.ismountFirst <;> simp [runBackup, fatalError, h1, h2, hf]
  · intro h1 h2 h3
    cases hf : e.ismountFirst <;> simp [runBackup, fatalError, h1, h2, h3, hf]

/-- Claim C7 witness: concrete runs showing exit code 2 with no unmount
after a failed re-check, and no mount event when already mounted. -/
theorem mount_idempotent_recheck_witness :
    (runBackup defaultSettings
        { envSuccess with ismountSecond := false }).exitCode = 2 ∧
      (∀ t, Event.umount t ∉ (runBackup defaultSettings
        { envSuccess with ismountSecond := false }).events) ∧
      (∀ c, Event.mount c ∉ (runBackup defaultSettings
        { envSuccess with ismountFirst := true }).events) :=
  ⟨((mount_idempotent_recheck defaultSettings
      { envSuccess with ismountSecond := false }).2.2.1
        (by decide) (by decide)).1,
   ((mount_idempotent_recheck defaultSettings
      { envSuccess with ismountSecond := false }).2.2.1
        (by decide) (by decide)).2.2,
   (mount_idempotent_recheck defaultSettings
      { envSuccess with ismountFirst := true }).1 (by decide)⟩

/-- Claim C8 counterexample: when the device directory is absent and
os.mkdir raises an OSError, the directory still does not exist afterwards,
yet the run dies on the unhandled exception with exit status 1: no error
code 4, no MQTT error publish and no unmount attempt. -/
theorem mkdir_raises_counterexample :
    envMkdirRaises.isdirDevicePath = false ∧
      envMkdirRaises.isdirDevicePathAfter = false ∧
      runBackup defaultSettings envMkdirRaises =
        { exitCode := 1,
          events := [Event.publish "pi/backup" "busy",
            Event.mount "mount -t cifs -o user=,password=,rw,file_mode=0777,dir_mode=0777 //10.0.0.2/backup /media/backup",
            Event.maccmd,
            Event.mkdir "/media/backup//rpi_b827eb001122"],
          crashed := true } ∧
      (runBackup defaultSettings envMkdirRaises).exitCode ≠ 4 := by
  decide

/-- Claim C8 (amended): when the device directory is absent, os.mkdir
returns without raising, and the directory still does not exist
afterwards, the run takes the fatal path with error code 4: it publishes
the error over MQTT, attempts an unmount, and exits with code 4. -/
theorem mkdir_silent_failure_exit4 (s : Settings) (e : Env)
    (h1 : e.isdirMountpoint = true) (h2 : e.ismountSecond = true)
    (h3 : e.isdirBackupPath = true) (h4 : e.maccmdRet = 0)
    (h5 : e.isdirDevicePath = false) (h6 : e.mkdirRaises = false)
    (h7 : e.isdirDevicePathAfter = false) :
    (runBackup s e).exitCode = 4 ∧
    Event.mkdir (s.cifsTarget ++ "/" ++ s.cifsSubDir ++ "/"
        ++ deviceDirectory e.hostname e.macOutput) ∈ (runBackup s e).events ∧
    Event.publish (s.pubTopicNamespace ++ "/" ++ "last_error/message")
        ("Failed to create " ++ (s.cifsTarget ++ "/" ++ s.cifsSubDir ++ "/"
          ++ deviceDirectory e.hostname e.macOutput)) ∈ (runBackup s e).events ∧
    Event.publish (s.pubTopicNamespace ++ "/" ++ "last_error/timestamp")
        e.errorTimestamp ∈ (runBackup s e).events ∧
    Event.umount s.cifsTarget ∈ (runBackup s e).events ∧
    (runBackup s e).crashed = false := by
  cases hf : e.ismountFirst <;>
    simp [runBackup, fatalError, h1, h2, h3, h4, h5, h6, h7, hf]

/-- Claim C8 witness: the amended claim at a concrete environment whose
mkdir silently fails. -/
theorem mkdir_silent_failure_exit4_witness :
    (runBackup defaultSettings
        { envSuccess with
            isdirDevicePath := false, isdirDevicePathAfter := false }).exitCode = 4 ∧
      Event.umount "/media/backup" ∈
        (runBackup defaultSettings
          { envSuccess with
              isdirDevicePath := false, isdirDevicePathAfter := false }).events :=
  ⟨(mkdir_silent_failure_exit4 defaultSettings
      { envSuccess with isdirDevicePath := false, isdirDevicePathAfter := false }
      (by decide) (by decide) (by decide) (by decide) (by decide) (by decide)
      (by decide)).1,
   (mkdir_silent_failure_exit4 defaultSettings
      { envSuccess with isdirDevicePath := false, isdirDevicePathAfter := false }
      (by decide) (by decide) (by decide) (by decide) (by decide) (by decide)
      (by decide)).2.2.2.2.1⟩

/-- Claim C9 counterexample: with an empty full_backup_interval the run
aborts before the backup is invoked, but the unhandled IndexError makes
the interpreter exit with status 1, which lies inside the documented 0-6
exit code set rather than outside it as the claim states. -/
theorem empty_interval_exit_code_counterexample :
    settingsEmptyInterval.fullBackupInterval = "" ∧
      imageName settingsEmptyInterval.imageBaseName
        settingsEmptyInterval.fullBackupInterval envSuccess.now = none ∧
      runBackup settingsEmptyInterval envSuccess =
        { exitCode := 1,
          events := [Event.publish "pi/backup" "busy",
            Event.mount "mount -t cifs -o user=,password=,rw,file_mode=0777,dir_mode=0777 //10.0.0.2/backup /media/backup",
            Event.maccmd],
          crashed := true } ∧
      0 ≤ (runBackup settingsEmptyInterval envSuccess).exitCode ∧
      (runBackup settingsEmptyInterval envSuccess).exitCode ≤ 6 := by
  decide

/-- Claim C9 (amended): for an empty full_backup_interval the image-naming
step produces no filename at all; taking the first character of the
lowercased interval raises an IndexError, so the run aborts before the
backup is invoked, with interpreter exit status 1, which lies inside the
documented 0-6 set. -/
theorem empty_interval_aborts (s : Settings) (e : Env)
    (hint : s.fullBackupInterval = "")
    (h1 : e.isdirMountpoint = true) (h2 : e.ismountSecond = true)
    (h3 : e.isdirBackupPath = true) (h4 : e.maccmdRet = 0)
    (h5 : e.isdirDevicePath = true ∨
      (e.mkdirRaises = false ∧ e.isdirDevicePathAfter = true)) :
    imageName s.imageBaseName s.fullBackupInterval e.now = none ∧
    (runBackup s e).crashed = true ∧
    (runBackup s e).exitCode = 1 ∧
    (∀ c, Event.backup c ∉ (runBackup s e).events) ∧
    0 ≤ (runBackup s e).exitCode ∧ (runBackup s e).exitCode ≤ 6 := by
  have himg : imageName s.imageBaseName s.fullBackupInterval e.now = none := by
    rw [hint]; rfl
  refine ⟨himg, ?_⟩
  rcases h5 with h5 | h5
  · cases hf : e.ismountFirst <;>
      simp [runBackup, runFromImage, crashResult, h1, h2, h3, h4, h5, hf, himg]
  · obtain ⟨h5a, h5b⟩ := h5
    cases hdp : e.isdirDevicePath <;> cases hf : e.ismountFirst <;>
      simp [runBackup, runFromImage, crashResult, h1, h2, h3, h4, h5a, h5b,
        hdp, hf, himg]

/-- Claim C9 witness: the amended claim at the concrete empty-interval
settings and an otherwise successful environment. -/
theorem empty_interval_aborts_witness :
    (runBackup settingsEmptyInterval envSuccess).crashed = true ∧
      (∀ c, Event.backup c ∉ (runBackup settingsEmptyInterval envSuccess).events) :=
  ⟨(empty_interval_aborts settingsEmptyInterval envSuccess rfl
      (by decide) (by decide) (by decide) (by decide) (Or.inl (by decide))).2.1,
   (empty_interval_aborts settingsEmptyInterval envSuccess rfl
      (by decide) (by decide) (by decide) (by decide) (Or.inl (by decide))).2.2.2.1⟩

/-- Claim C10: when a top level backup, cifs or mqtt key is present in the
override file with a value that is not a JSON object, the merge skips that
section and every field of the corresponding settings section keeps its
compiled-in default; the merge itself raises no error, being a total
function. -/
theorem non_dict_section_skipped (ov : List (String × JVal)) :
    (∀ v, dictLookup ov "backup" = some v → (∀ o, v ≠ JVal.obj o) →
      (loadedSettings ov).backup = defaultBackup) ∧
    (∀ v, dictLookup ov "cifs" = some v → (∀ o, v ≠ JVal.obj o) →
      (loadedSettings ov).cifs = defaultCifs) ∧
    (∀ v, dictLookup ov "mqtt" = some v → (∀ o, v ≠ JVal.obj o) →
      (loadedSettings ov).mqtt = defaultMqtt) := by
  refine ⟨?_, ?_, ?_⟩ <;> intro v hv hno <;>
    refine mergeSection_of_no_obj _ ov _ (fun o heq => ?_) <;>
    rw [hv] at heq <;>
    exact hno o (Option.some.inj heq)

/-- Claim C10 witness: a numeric backup override leaves the backup section
at its defaults. -/
theorem non_dict_section_skipped_witness :
    (loadedSettings [("backup", JVal.num 3)]).backup = defaultBackup :=
  (non_dict_section_skipped [("backup", JVal.num 3)]).1 (JVal.num 3) rfl
    (fun _ h => JVal.noConfusion h)

end RpiBackup
